import Mathlib

/-!
A shallow embedding of the Tasmota timeprop driver
(`tasmota/tasmota_xdrv_driver/xdrv_48_timeprop.ino`, current variant) and
proofs about its behaviour.

Modelling conventions:
* C machine integers are modelled as `Nat`; a reduction modulo `2 ^ w` is
  applied exactly where the corresponding C expression can overflow or is
  narrowed (`uint32_t` increments of the per-second counters, the `uint8_t`
  narrowing of `round(...)` results, the implicit conversions of the `int`
  returned by `atoi`).
* The three places where the source computes with 32-bit floats
  (`OpenSecondsForPercentValue`, the fallback-value quantizer in
  `CmndTimepropFallbackvalue`, `FallbackValueSettingCalculated`) are modelled
  with exact integer arithmetic implementing round-half-away-from-zero.
  Agreement of the integer formulas with the float32 computations was checked
  exhaustively over the operating domains: `round(7*p/100)` and
  `round(level*100/7)` agree for all `p ≤ 100`, `level ≤ 7`, and
  `round((float)p/100.0f*(float)T)` agrees for all `p ≤ 100` and every `T`
  that is a multiple of 60 up to 1860 (every runtime timebase the driver can
  hold is `minutes * 60` with `minutes ≤ 31`).
* The external actuator (`ExecuteCommandPower`) is modelled by returning the
  list of issued power commands; the command handlers return the optional
  `ResponseCmndNumber` acknowledgment (`none` when the handler returns before
  responding).
-/

set_option maxRecDepth 40000
set_option maxHeartbeats 1000000

namespace Timeprop

/-- Number of timeprop channels (`MAX_TIMEPROPS`); the driver documentation
fixes the channel indices 1 to 4. -/
def MAX_TIMEPROPS : Nat := 4

/-- The constant `2 ^ 32`, the modulus of the C `uint32_t` fields. -/
def U32 : Nat := 4294967296

/-- A power command issued to a relay through `ExecuteCommandPower`
(`POWER_ON` / `POWER_OFF`). -/
inductive PowerCmd where
  | powerOn : PowerCmd
  | powerOff : PowerCmd
deriving DecidableEq, Repr

/-- Per-channel runtime state, `struct TIMEPROPSSTATE` (lines 99-110 of the
source).  `incoming_percent_value`, `open_seconds_active` and
`fallback_value` are `uint8_t` in the source; `seconds_running`,
`last_received` and `timebase` are `uint32_t`.  The defaults are the C++
member initializers. -/
structure TIMEPROPSSTATE where
  is_running : Bool := false
  is_open : Bool := false
  incoming_percent_value : Nat := 0
  open_seconds_active : Nat := 0
  fallback_value : Nat := 0
  seconds_running : Nat := 0
  last_received : Nat := 0
  timebase : Nat := 0
deriving DecidableEq, Repr

/-- The default-constructed channel state (all C++ member initializers). -/
def TIMEPROPSSTATE.start : TIMEPROPSSTATE := {}

/-- Persisted per-channel configuration, `Settings->timeprop[i]`:
`timebase` in minutes (0..31) and the 3-bit quantized `fallback_value`
level (0..7). -/
structure SettingsTimeprop where
  timebase : Nat := 0
  fallback_value : Nat := 0
deriving DecidableEq, Repr

/-- Whole driver state: per-channel runtime states (`Timepropsstate`),
persisted configuration (`Settings->timeprop`, `Settings->timeprop_cfg`) and
the two derived globals `fallback_after_seconds` and `start_with_fallback`. -/
structure TimepropState where
  channels : Fin MAX_TIMEPROPS → TIMEPROPSSTATE
  settings : Fin MAX_TIMEPROPS → SettingsTimeprop
  cfg_start_with_fallback : Bool
  cfg_fallback_time : Nat
  fallback_after_seconds : Nat
  start_with_fallback : Bool
deriving DecidableEq

/-- Conversion of the `int` returned by `atoi` to C `uint32_t`
(reduction modulo `2 ^ 32`, negative values wrap). -/
def uint32OfInt (v : Int) : Nat := (v % (U32 : Int)).toNat

/-- Conversion of the `int` returned by `atoi` to C `uint8_t`
(reduction modulo `2 ^ 8`, negative values wrap). -/
def uint8OfInt (v : Int) : Nat := (v % (256 : Int)).toNat

/-- Model of `OpenSecondsForPercentValue` (lines 355-361): the float32 expression
`round((float)percent_value / 100.0f * (float)timebase)` narrowed into the
`uint8_t` return value.  The channel's `timebase` is passed directly instead
of the channel index.  Integer formula for round-half-away-from-zero,
checked against the float32 computation on the reachable domain (see the
file header); the narrowing of the out-of-`uint8_t`-range results is the
modulo-256 behaviour of the float-to-int32-to-uint8 conversion emitted for
this expression. -/
def OpenSecondsForPercentValue (percent_value timebase : Nat) : Nat :=
  ((percent_value * timebase + 50) / 100) % 256

/-- Model of `FallbackValueSettingCalculated` (lines 363-369): dequantizes the 3-bit
persisted level, `round((float)level * 100.0f / 7.0f)` — integer formula for
round-half-away-from-zero, exact for `level ≤ 7`. -/
def FallbackValueSettingCalculated (level : Nat) : Nat :=
  (200 * level + 7) / 14

/-- The quantizer in `CmndTimepropFallbackvalue` (line 290):
`round((float)7 * (float)percent / (float)100)` — integer formula for
round-half-away-from-zero, exact for `percent ≤ 100`. -/
def fallbackStoreValue (percent : Nat) : Nat :=
  (7 * percent + 50) / 100

/-- Model of `SyncSettings` (lines 344-353): recompute every channel's runtime
`fallback_value` and `timebase` (seconds) plus the globals from the
persisted configuration. -/
def SyncSettings (s : TimepropState) : TimepropState :=
  { s with
    channels := fun i =>
      { s.channels i with
        fallback_value := FallbackValueSettingCalculated ((s.settings i).fallback_value),
        timebase := (s.settings i).timebase * 60 },
    fallback_after_seconds := s.cfg_fallback_time * 60 * 60,
    start_with_fallback := s.cfg_start_with_fallback }

/-- Model of `TimepropInit` (lines 121-152): sync the settings, command every channel
with nonzero timebase OFF once, and — when `start_with_fallback` is set —
seed every channel with nonzero timebase and nonzero fallback value into the
running state.  The second component lists the issued power commands as
(relay number, command). -/
def TimepropInit (s : TimepropState) : TimepropState × List (Nat × PowerCmd) :=
  let s1 := SyncSettings s
  let cmds := (List.finRange MAX_TIMEPROPS).filterMap fun i =>
    if 0 < (s1.channels i).timebase then some (i.val + 1, PowerCmd.powerOff) else none
  let s2 :=
    if s1.start_with_fallback then
      { s1 with
        channels := fun i =>
          if (s1.channels i).timebase = 0 then s1.channels i
          else if (s1.channels i).fallback_value = 0 then s1.channels i
          else
            { s1.channels i with
              is_running := true,
              incoming_percent_value := (s1.channels i).fallback_value } }
    else s1
  (s2, cmds)

/-- Cycle-start block of `TimepropEverySecond` (lines 171-183): at
`seconds_running == 0` recompute `open_seconds_active` and command ON when
it is positive. -/
def tickOpenPhase (s : TIMEPROPSSTATE) : TIMEPROPSSTATE × List PowerCmd :=
  if s.seconds_running = 0 then
    if 0 < OpenSecondsForPercentValue s.incoming_percent_value s.timebase then
      ({ s with
          open_seconds_active := OpenSecondsForPercentValue s.incoming_percent_value s.timebase,
          is_open := true },
        [PowerCmd.powerOn])
    else
      ({ s with
          open_seconds_active := OpenSecondsForPercentValue s.incoming_percent_value s.timebase },
        [])
  else (s, [])

/-- Closing block of `TimepropEverySecond` (lines 184-189): command OFF once
`seconds_running` has reached `open_seconds_active` while the channel is
open. -/
def tickClosePhase (s : TIMEPROPSSTATE) : TIMEPROPSSTATE × List PowerCmd :=
  if s.open_seconds_active ≤ s.seconds_running ∧ s.is_open = true then
    ({ s with is_open := false }, [PowerCmd.powerOff])
  else (s, [])

/-- Counter advance of `TimepropEverySecond` (lines 191-193): the `uint32_t`
increments of `seconds_running` and `last_received`. -/
def tickAdvance (s : TIMEPROPSSTATE) : TIMEPROPSSTATE :=
  { s with
    seconds_running := (s.seconds_running + 1) % U32,
    last_received := (s.last_received + 1) % U32 }

/-- Fallback block of `TimepropEverySecond` (lines 195-202): when the
feature is enabled and no Set has been received for long enough, take over
with the fallback value. -/
def tickFallbackPhase (fallback_after_seconds : Nat) (s : TIMEPROPSSTATE) : TIMEPROPSSTATE :=
  if 0 < fallback_after_seconds ∧ fallback_after_seconds ≤ s.last_received then
    { s with incoming_percent_value := s.fallback_value, last_received := 0 }
  else s

/-- Cycle-wrap block of `TimepropEverySecond` (lines 204-207): reset
`seconds_running` once it reaches the timebase. -/
def tickWrapPhase (s : TIMEPROPSSTATE) : TIMEPROPSSTATE :=
  if s.timebase ≤ s.seconds_running then { s with seconds_running := 0 } else s

/-- The per-channel body of `TimepropEverySecond` (lines 160-208): skip
channels with zero timebase or not running, otherwise run the four blocks in
source order.  Returns the new channel state and the power commands issued
for this channel. -/
def TimepropEverySecondChannel (fallback_after_seconds : Nat) (s : TIMEPROPSSTATE) :
    TIMEPROPSSTATE × List PowerCmd :=
  if s.timebase = 0 then (s, [])
  else if s.is_running = false then (s, [])
  else
    (tickWrapPhase (tickFallbackPhase fallback_after_seconds
        (tickAdvance (tickClosePhase (tickOpenPhase s).1).1)),
      (tickOpenPhase s).2 ++ (tickClosePhase (tickOpenPhase s).1).2)

/-- Model of `TimepropEverySecond` (lines 157-209): run the per-channel body on every
channel; the channels are independent, so the loop is a pointwise map, with
the issued commands tagged by relay number in channel order. -/
def TimepropEverySecond (s : TimepropState) : TimepropState × List (Nat × PowerCmd) :=
  ({ s with
      channels := fun i =>
        (TimepropEverySecondChannel s.fallback_after_seconds (s.channels i)).1 },
    (List.finRange MAX_TIMEPROPS).flatMap fun i =>
      (TimepropEverySecondChannel s.fallback_after_seconds (s.channels i)).2.map
        fun c => (i.val + 1, c))

/-- Iterated per-channel ticks. -/
def tickChannelN (fallback_after_seconds : Nat) : Nat → TIMEPROPSSTATE → TIMEPROPSSTATE
  | 0, s => s
  | n + 1, s => (TimepropEverySecondChannel fallback_after_seconds
      (tickChannelN fallback_after_seconds n s)).1

/-- Model of `CmndTimepropSet` (lines 214-242).  `payload` is the parsed `atoi`
result when `XdrvMailbox.data_len > 0`, `none` for an empty payload; the
result's second component is the `ResponseCmndNumber` acknowledgment
(`none` when the handler returns early without responding). -/
def CmndTimepropSet (idx : Nat) (payload : Option Int) (s : TimepropState) :
    TimepropState × Option Nat :=
  if h : 1 ≤ idx ∧ idx ≤ MAX_TIMEPROPS then
    match payload with
    | none => (s, some ((s.channels ⟨idx - 1, by omega⟩).incoming_percent_value))
    | some v =>
        if 100 < uint32OfInt v then (s, none)
        else
          ({ s with
              channels := Function.update s.channels ⟨idx - 1, by omega⟩
                { s.channels ⟨idx - 1, by omega⟩ with
                  incoming_percent_value := uint32OfInt v,
                  is_running := true,
                  last_received := 0 } },
            some (uint32OfInt v))
  else (s, none)

/-- Model of `CmndTimepropTimeBase` (lines 244-270): validate, persist the minutes
value, resync, acknowledge with the persisted value. -/
def CmndTimepropTimeBase (idx : Nat) (payload : Option Int) (s : TimepropState) :
    TimepropState × Option Nat :=
  if h : 1 ≤ idx ∧ idx ≤ MAX_TIMEPROPS then
    match payload with
    | none => (s, some ((s.settings ⟨idx - 1, by omega⟩).timebase))
    | some v =>
        if 31 < uint8OfInt v then (s, none)
        else
          let s1 := SyncSettings
            { s with
              settings := Function.update s.settings ⟨idx - 1, by omega⟩
                { s.settings ⟨idx - 1, by omega⟩ with timebase := uint8OfInt v } }
          (s1, some ((s1.settings ⟨idx - 1, by omega⟩).timebase))
  else (s, none)

/-- Model of `CmndTimepropFallbackvalue` (lines 272-298): validate, persist the
quantized level, resync, acknowledge with the dequantized persisted
level. -/
def CmndTimepropFallbackvalue (idx : Nat) (payload : Option Int) (s : TimepropState) :
    TimepropState × Option Nat :=
  if h : 1 ≤ idx ∧ idx ≤ MAX_TIMEPROPS then
    match payload with
    | none =>
        (s, some (FallbackValueSettingCalculated ((s.settings ⟨idx - 1, by omega⟩).fallback_value)))
    | some v =>
        if 100 < uint32OfInt v then (s, none)
        else
          let s1 := SyncSettings
            { s with
              settings := Function.update s.settings ⟨idx - 1, by omega⟩
                { s.settings ⟨idx - 1, by omega⟩ with
                  fallback_value := fallbackStoreValue (uint32OfInt v) } }
          (s1, some (FallbackValueSettingCalculated
            ((s1.settings ⟨idx - 1, by omega⟩).fallback_value)))
  else (s, none)

/-- Model of `CmndTimepropStartWithFallback` (lines 300-319): the payload is accepted
only when `data_len == 1`; validate, persist the flag, resync, acknowledge
with the persisted flag. -/
def CmndTimepropStartWithFallback (payload : Option Int) (s : TimepropState) :
    TimepropState × Option Nat :=
  match payload with
  | none => (s, some (if s.cfg_start_with_fallback then 1 else 0))
  | some v =>
      if 1 < uint8OfInt v then (s, none)
      else
        let s1 := SyncSettings { s with cfg_start_with_fallback := uint8OfInt v = 1 }
        (s1, some (if s1.cfg_start_with_fallback then 1 else 0))

/-- Model of `CmndTimepropFallbackAfter` (lines 321-339): validate, persist the hours
value, resync, acknowledge with the persisted value. -/
def CmndTimepropFallbackAfter (payload : Option Int) (s : TimepropState) :
    TimepropState × Option Nat :=
  match payload with
  | none => (s, some s.cfg_fallback_time)
  | some v =>
      if 127 < uint8OfInt v then (s, none)
      else
        let s1 := SyncSettings { s with cfg_fallback_time := uint8OfInt v }
        (s1, some s1.cfg_fallback_time)

/-- One controller step: an `Init`, a `Tick` or any setter call with
arbitrary arguments. -/
inductive Step : TimepropState → TimepropState → Prop where
  | init (s : TimepropState) : Step s (TimepropInit s).1
  | tick (s : TimepropState) : Step s (TimepropEverySecond s).1
  | set (idx : Nat) (payload : Option Int) (s : TimepropState) :
      Step s (CmndTimepropSet idx payload s).1
  | timeBase (idx : Nat) (payload : Option Int) (s : TimepropState) :
      Step s (CmndTimepropTimeBase idx payload s).1
  | fallbackValue (idx : Nat) (payload : Option Int) (s : TimepropState) :
      Step s (CmndTimepropFallbackvalue idx payload s).1
  | startWithFallback (payload : Option Int) (s : TimepropState) :
      Step s (CmndTimepropStartWithFallback payload s).1
  | fallbackAfter (payload : Option Int) (s : TimepropState) :
      Step s (CmndTimepropFallbackAfter payload s).1

/-- Like `Step` but without the `TimepropTimeBase` setter. -/
inductive StepNoTimeBase : TimepropState → TimepropState → Prop where
  | init (s : TimepropState) : StepNoTimeBase s (TimepropInit s).1
  | tick (s : TimepropState) : StepNoTimeBase s (TimepropEverySecond s).1
  | set (idx : Nat) (payload : Option Int) (s : TimepropState) :
      StepNoTimeBase s (CmndTimepropSet idx payload s).1
  | fallbackValue (idx : Nat) (payload : Option Int) (s : TimepropState) :
      StepNoTimeBase s (CmndTimepropFallbackvalue idx payload s).1
  | startWithFallback (payload : Option Int) (s : TimepropState) :
      StepNoTimeBase s (CmndTimepropStartWithFallback payload s).1
  | fallbackAfter (payload : Option Int) (s : TimepropState) :
      StepNoTimeBase s (CmndTimepropFallbackAfter payload s).1

/-- A startup state: all channels default-constructed, the derived globals
at their C++ initializers, the persisted configuration within its field
widths (minutes in 5 bits capped at 31 by the setter, levels in 3 bits,
hours in 7 bits). -/
def StartupState (s : TimepropState) : Prop :=
  (∀ i, s.channels i = TIMEPROPSSTATE.start) ∧
  (∀ i, (s.settings i).timebase ≤ 31 ∧ (s.settings i).fallback_value ≤ 7) ∧
  s.cfg_fallback_time ≤ 127 ∧
  s.fallback_after_seconds = 0 ∧
  s.start_with_fallback = false

/-- The three per-channel invariants asserted by the specification. -/
def ClaimedInvariants (s : TimepropState) : Prop :=
  ∀ i : Fin MAX_TIMEPROPS,
    (0 < (s.channels i).timebase →
      (s.channels i).seconds_running < (s.channels i).timebase) ∧
    (s.channels i).open_seconds_active ≤ (s.channels i).timebase ∧
    ((s.channels i).is_open = true →
      (s.channels i).is_running = true ∧ 0 < (s.channels i).timebase)

end Timeprop


namespace Timeprop

/-! ### Helper lemmas -/

/-- A mid-cycle tick (nonzero `seconds_running`) skips the cycle-start
block. -/
theorem tickOpenPhase_of_mid (s : TIMEPROPSSTATE) (h : s.seconds_running ≠ 0) :
    tickOpenPhase s = (s, []) := by
  simp [tickOpenPhase, h]

/-- Channels with zero timebase or not running are skipped entirely by the
per-channel tick body. -/
theorem tickChannel_skip (fas : Nat) (s : TIMEPROPSSTATE)
    (h : s.timebase = 0 ∨ s.is_running = false) :
    TimepropEverySecondChannel fas s = (s, []) := by
  rcases h with h | h
  · simp [TimepropEverySecondChannel, h]
  · unfold TimepropEverySecondChannel
    rw [h]
    split <;> rfl

/-- A concrete quiescent driver state used to instantiate theorems with
hypotheses. -/
def demoState : TimepropState :=
  { channels := fun _ => {},
    settings := fun _ => {},
    cfg_start_with_fallback := false,
    cfg_fallback_time := 0,
    fallback_after_seconds := 0,
    start_with_fallback := false }

/-- Full effect of the per-channel tick body on a running channel entered
mid-cycle (`seconds_running ≠ 0`). -/
theorem tickChannel_run_mid (fas : Nat) (s : TIMEPROPSSTATE) (h0 : s.timebase ≠ 0)
    (h1 : s.is_running = true) (hsr : s.seconds_running ≠ 0) :
    (TimepropEverySecondChannel fas s).1 =
      { s with
        is_open := if s.open_seconds_active ≤ s.seconds_running then false else s.is_open,
        incoming_percent_value :=
          if 0 < fas ∧ fas ≤ (s.last_received + 1) % U32 then s.fallback_value
          else s.incoming_percent_value,
        seconds_running :=
          if s.timebase ≤ (s.seconds_running + 1) % U32 then 0
          else (s.seconds_running + 1) % U32,
        last_received :=
          if 0 < fas ∧ fas ≤ (s.last_received + 1) % U32 then 0
          else (s.last_received + 1) % U32 } := by
  unfold TimepropEverySecondChannel
  rw [tickOpenPhase_of_mid s hsr]
  simp only [tickClosePhase, tickAdvance, tickFallbackPhase, tickWrapPhase, h1]
  split_ifs <;> first | rfl | simp_all

/-- Commands issued by the per-channel tick body on a running channel
entered mid-cycle. -/
theorem tickChannel_cmds_mid (fas : Nat) (s : TIMEPROPSSTATE) (h0 : s.timebase ≠ 0)
    (h1 : s.is_running = true) (hsr : s.seconds_running ≠ 0) :
    (TimepropEverySecondChannel fas s).2 =
      if s.open_seconds_active ≤ s.seconds_running ∧ s.is_open = true then
        [PowerCmd.powerOff]
      else [] := by
  unfold TimepropEverySecondChannel
  rw [tickOpenPhase_of_mid s hsr]
  simp only [tickClosePhase, h1]
  split_ifs <;> first | rfl | simp_all

/-- Full effect of the per-channel tick body on a running channel entered at
cycle start (`seconds_running = 0`). -/
theorem tickChannel_run_start (fas : Nat) (s : TIMEPROPSSTATE) (h0 : s.timebase ≠ 0)
    (h1 : s.is_running = true) (hsr : s.seconds_running = 0) :
    (TimepropEverySecondChannel fas s).1 =
      { s with
        open_seconds_active := OpenSecondsForPercentValue s.incoming_percent_value s.timebase,
        is_open := decide (0 < OpenSecondsForPercentValue s.incoming_percent_value s.timebase),
        incoming_percent_value :=
          if 0 < fas ∧ fas ≤ (s.last_received + 1) % U32 then s.fallback_value
          else s.incoming_percent_value,
        seconds_running := if s.timebase ≤ 1 then 0 else 1,
        last_received :=
          if 0 < fas ∧ fas ≤ (s.last_received + 1) % U32 then 0
          else (s.last_received + 1) % U32 } := by
  unfold TimepropEverySecondChannel
  simp only [tickOpenPhase, tickClosePhase, tickAdvance, tickFallbackPhase,
    tickWrapPhase, h1, hsr]
  have hU : (0 + 1) % U32 = 1 := by decide
  split_ifs <;> first | rfl | simp_all

/-- Commands issued by the per-channel tick body on a running channel
entered at cycle start. -/
theorem tickChannel_cmds_start (fas : Nat) (s : TIMEPROPSSTATE) (h0 : s.timebase ≠ 0)
    (h1 : s.is_running = true) (hsr : s.seconds_running = 0) :
    (TimepropEverySecondChannel fas s).2 =
      (if 0 < OpenSecondsForPercentValue s.incoming_percent_value s.timebase then
        [PowerCmd.powerOn] else []) ++
      (if OpenSecondsForPercentValue s.incoming_percent_value s.timebase = 0 ∧
          s.is_open = true then [PowerCmd.powerOff] else []) := by
  unfold TimepropEverySecondChannel
  simp only [tickOpenPhase, tickClosePhase, h1, hsr]
  split_ifs <;> first | rfl | simp_all

/-! ### Claims -/

/-- Claim C2: once a cycle has started, `open_seconds_active` is not modified
by any mid-cycle tick (a tick entered with `seconds_running ≠ 0`) nor by any
`CmndTimepropSet` call on any channel, so a mid-cycle setpoint change never
alters the current cycle's latched ON duration. -/
theorem claim_C2_latch :
    (∀ (fas : Nat) (s : TIMEPROPSSTATE), s.seconds_running ≠ 0 →
      (TimepropEverySecondChannel fas s).1.open_seconds_active
        = s.open_seconds_active) ∧
    (∀ (idx : Nat) (payload : Option Int) (st : TimepropState) (i : Fin MAX_TIMEPROPS),
      ((CmndTimepropSet idx payload st).1.channels i).open_seconds_active
        = (st.channels i).open_seconds_active) := by
  constructor
  · intro fas s h
    unfold TimepropEverySecondChannel
    rw [tickOpenPhase_of_mid s h]
    simp only [tickClosePhase, tickAdvance, tickFallbackPhase, tickWrapPhase]
    split_ifs <;> rfl
  · intro idx payload st i
    unfold CmndTimepropSet
    split
    · rename_i h
      match payload with
      | none => rfl
      | some v =>
          dsimp only
          split
          · rfl
          · dsimp only
            rcases eq_or_ne i (⟨idx - 1, by omega⟩ : Fin MAX_TIMEPROPS) with hi | hi
            · subst hi; simp [Function.update_apply]
            · simp [Function.update_apply, hi]
    · rfl

/-- Witness for C2 at a concrete mid-cycle state. -/
theorem claim_C2_latch_witness :
    (TimepropEverySecondChannel 0
      { is_running := true, timebase := 60, seconds_running := 5,
        open_seconds_active := 30, incoming_percent_value := 80 }).1.open_seconds_active
      = 30 := by
  have h := claim_C2_latch.1 0
    { is_running := true, timebase := 60, seconds_running := 5,
      open_seconds_active := 30, incoming_percent_value := 80 } (by decide)
  simpa using h

/-- Claim C8: a tick leaves every channel with zero timebase or not running
completely unchanged and issues no actuator command for it. -/
theorem claim_C8_disabled_skip (s : TimepropState) (i : Fin MAX_TIMEPROPS)
    (h : (s.channels i).timebase = 0 ∨ (s.channels i).is_running = false) :
    (TimepropEverySecond s).1.channels i = s.channels i ∧
    ∀ c ∈ (TimepropEverySecond s).2, c.1 ≠ i.val + 1 := by
  constructor
  · show (TimepropEverySecondChannel s.fallback_after_seconds (s.channels i)).1
      = s.channels i
    rw [tickChannel_skip _ _ h]
  · intro c hc
    simp only [TimepropEverySecond, List.mem_flatMap, List.mem_map] at hc
    obtain ⟨a, -, cmd, hcmd, rfl⟩ := hc
    by_cases hai : a = i
    · subst hai
      rw [tickChannel_skip _ _ h] at hcmd
      simp at hcmd
    · dsimp only
      intro hv
      exact hai (Fin.ext (by omega))

/-- Witness for C8 on the quiescent state (channel 1 has timebase 0). -/
theorem claim_C8_disabled_skip_witness :
    (TimepropEverySecond demoState).1.channels ⟨0, by decide⟩
      = demoState.channels ⟨0, by decide⟩ :=
  (claim_C8_disabled_skip demoState ⟨0, by decide⟩ (Or.inl (by decide))).1

/-- Claim C9: the ON duration latched at cycle start is the 8-bit narrowing of
the rounded product: `open_seconds_active = round(p/100*T) mod 256`; at
timebase 1860 s (31 minutes) and 100 percent the exact rounded product is
1860 but the latched value is 68. -/
theorem claim_C9_osa_uint8 :
    (∀ (fas : Nat) (s : TIMEPROPSSTATE), s.timebase ≠ 0 → s.is_running = true →
      s.seconds_running = 0 →
      (TimepropEverySecondChannel fas s).1.open_seconds_active
        = ((s.incoming_percent_value * s.timebase + 50) / 100) % 256) ∧
    OpenSecondsForPercentValue 100 1860 = 68 ∧
    (100 * 1860 + 50) / 100 = 1860 := by
  refine ⟨?_, by decide, by decide⟩
  intro fas s h0 h1 h2
  unfold TimepropEverySecondChannel
  simp only [tickOpenPhase, tickClosePhase, tickAdvance, tickFallbackPhase,
    tickWrapPhase, OpenSecondsForPercentValue, h0, h1, h2]
  split_ifs <;> first | rfl | contradiction

/-- Witness for C9 at the 31-minute, 100-percent cycle start. -/
theorem claim_C9_osa_uint8_witness :
    (TimepropEverySecondChannel 0
      { is_running := true, timebase := 1860, incoming_percent_value := 100 }).1.open_seconds_active
      = 68 := by
  have h := claim_C9_osa_uint8.1 0
    { is_running := true, timebase := 1860, incoming_percent_value := 100 }
    (by decide) (by decide) (by decide)
  simpa using h

/-- Claim C10: `CmndTimepropSet` with a valid channel index and an empty
payload changes no state and responds with the channel's current
`incoming_percent_value`. -/
theorem claim_C10_empty_payload_read (idx : Nat) (h1 : 1 ≤ idx)
    (h2 : idx ≤ MAX_TIMEPROPS) (s : TimepropState) :
    CmndTimepropSet idx none s
      = (s, some ((s.channels ⟨idx - 1, by omega⟩).incoming_percent_value)) := by
  unfold CmndTimepropSet
  rw [dif_pos ⟨h1, h2⟩]

/-- Witness for C10 on the quiescent state, channel 2. -/
theorem claim_C10_empty_payload_read_witness :
    CmndTimepropSet 2 none demoState = (demoState, some 0) := by
  have h := claim_C10_empty_payload_read 2 (by decide) (by decide) demoState
  simpa using h

end Timeprop

namespace Timeprop

/-- Claim C3: on a running channel with nonzero timebase, a tick performs the
fallback takeover exactly when `fallback_after_seconds > 0` and
`last_received` reaches or exceeds it after the in-tick increment: the
setpoint becomes the channel's fallback value and `last_received` resets to
0; the takeover itself never changes `open_seconds_active`; and with
`fallback_after_seconds = 0` no takeover occurs no matter how large
`last_received` has grown. -/
theorem claim_C3_fallback_takeover (fas : Nat) (s : TIMEPROPSSTATE)
    (hT : s.timebase ≠ 0) (hrun : s.is_running = true)
    (hlr : s.last_received + 1 < U32) :
    (0 < fas → fas ≤ s.last_received + 1 →
      (TimepropEverySecondChannel fas s).1.incoming_percent_value = s.fallback_value ∧
      (TimepropEverySecondChannel fas s).1.last_received = 0) ∧
    ((TimepropEverySecondChannel fas s).1.open_seconds_active
      = (TimepropEverySecondChannel 0 s).1.open_seconds_active) ∧
    (fas = 0 →
      (TimepropEverySecondChannel fas s).1.incoming_percent_value
          = s.incoming_percent_value ∧
      (TimepropEverySecondChannel fas s).1.last_received = s.last_received + 1) := by
  have hmod : (s.last_received + 1) % U32 = s.last_received + 1 := Nat.mod_eq_of_lt hlr
  by_cases hsr : s.seconds_running = 0
  · rw [tickChannel_run_start fas s hT hrun hsr, tickChannel_run_start 0 s hT hrun hsr]
    refine ⟨fun hf1 hf2 => ?_, by rfl, fun hf0 => ?_⟩
    · rw [hmod]
      constructor <;> simp [hf1, hf2]
    · subst hf0
      constructor <;> simp [hmod]
  · rw [tickChannel_run_mid fas s hT hrun hsr, tickChannel_run_mid 0 s hT hrun hsr]
    refine ⟨fun hf1 hf2 => ?_, by rfl, fun hf0 => ?_⟩
    · rw [hmod]
      constructor <;> simp [hf1, hf2]
    · subst hf0
      constructor <;> simp [hmod]

/-- Witness for C3: a takeover fires when `last_received` reaches the
threshold, and with threshold 0 nothing happens. -/
theorem claim_C3_fallback_takeover_witness :
    (TimepropEverySecondChannel 10
      { is_running := true, timebase := 60, seconds_running := 3,
        last_received := 9, fallback_value := 43,
        incoming_percent_value := 80 }).1.incoming_percent_value = 43 := by
  have h := (claim_C3_fallback_takeover 10
    { is_running := true, timebase := 60, seconds_running := 3,
      last_received := 9, fallback_value := 43, incoming_percent_value := 80 }
    (by decide) (by decide) (by decide)).1 (by decide) (by decide)
  simpa using h.1

end Timeprop

namespace Timeprop

/-- Small nonnegative `atoi` results pass through the `uint32_t` conversion
unchanged. -/
theorem uint32OfInt_coe_small (p : Nat) (h : p < U32) : uint32OfInt (p : Int) = p := by
  simp only [uint32OfInt, U32] at *
  omega

/-- Effect of `CmndTimepropFallbackvalue` on a valid channel and an accepted percent:
persist the quantized level, resync, acknowledge the dequantized level. -/
theorem cmndFallbackvalue_eq (i : Fin MAX_TIMEPROPS) (v : Int) (s : TimepropState)
    (hv : uint32OfInt v ≤ 100) :
    CmndTimepropFallbackvalue (i.val + 1) (some v) s =
      (SyncSettings
        { s with
          settings := Function.update s.settings i
            { s.settings i with fallback_value := fallbackStoreValue (uint32OfInt v) } },
        some (FallbackValueSettingCalculated (fallbackStoreValue (uint32OfInt v)))) := by
  have hi : (⟨i.val + 1 - 1, by omega⟩ : Fin MAX_TIMEPROPS) = i := Fin.ext (by simp)
  unfold CmndTimepropFallbackvalue
  rw [dif_pos ⟨Nat.le_add_left 1 _, i.isLt⟩]
  dsimp only
  rw [if_neg (by omega)]
  rw [hi]
  simp [SyncSettings, Function.update_apply]

/-- The quantization round-trip facts for every percent `p ≤ 100`: the
dequantized quantizer output is one of the eight representable levels and is
(weakly) nearest to `p` among them. -/
theorem quant_roundtrip_facts :
    ∀ p < 101,
      FallbackValueSettingCalculated (fallbackStoreValue p)
          ∈ ([0, 14, 29, 43, 57, 71, 86, 100] : List Nat) ∧
      ∀ q ∈ ([0, 14, 29, 43, 57, 71, 86, 100] : List Nat),
        Int.natAbs ((FallbackValueSettingCalculated (fallbackStoreValue p) : Int) - p)
          ≤ Int.natAbs ((q : Int) - p) := by
  decide

/-- Claim C5: `CmndTimepropFallbackvalue` with channel `i` and percent
`p ≤ 100` stores the quantized level `round(7*p/100)`, acknowledges the
dequantized value `round(stored*100/7)`, a subsequent read returns the same
dequantized value, and that value is one of {0,14,29,43,57,71,86,100} and is
a level nearest to `p`. -/
theorem claim_C5_quantization (i : Fin MAX_TIMEPROPS) (p : Nat) (hp : p ≤ 100)
    (s : TimepropState) :
    ((CmndTimepropFallbackvalue (i.val + 1) (some (p : Int)) s).1.settings i).fallback_value
        = fallbackStoreValue p ∧
    (CmndTimepropFallbackvalue (i.val + 1) (some (p : Int)) s).2
        = some (FallbackValueSettingCalculated (fallbackStoreValue p)) ∧
    (CmndTimepropFallbackvalue (i.val + 1) none
        (CmndTimepropFallbackvalue (i.val + 1) (some (p : Int)) s).1).2
        = some (FallbackValueSettingCalculated (fallbackStoreValue p)) ∧
    FallbackValueSettingCalculated (fallbackStoreValue p)
        ∈ ([0, 14, 29, 43, 57, 71, 86, 100] : List Nat) ∧
    ∀ q ∈ ([0, 14, 29, 43, 57, 71, 86, 100] : List Nat),
      Int.natAbs ((FallbackValueSettingCalculated (fallbackStoreValue p) : Int) - p)
        ≤ Int.natAbs ((q : Int) - p) := by
  have hu : uint32OfInt (p : Int) = p :=
    uint32OfInt_coe_small p (by simp only [U32]; omega)
  have heq := cmndFallbackvalue_eq i (p : Int) s (by rw [hu]; exact hp)
  rw [hu] at heq
  have hi : (⟨i.val + 1 - 1, by omega⟩ : Fin MAX_TIMEPROPS) = i := Fin.ext (by simp)
  refine ⟨?_, ?_, ?_, (quant_roundtrip_facts p (by omega)).1,
    (quant_roundtrip_facts p (by omega)).2⟩
  · rw [heq]
    simp [SyncSettings, Function.update_apply]
  · rw [heq]
  · rw [heq]
    unfold CmndTimepropFallbackvalue
    rw [dif_pos ⟨Nat.le_add_left 1 _, i.isLt⟩]
    dsimp only
    rw [hi]
    simp [SyncSettings, Function.update_apply]

/-- Witness for C5 at percent 30 on channel 1: level 2 is stored and 29 is
read back. -/
theorem claim_C5_quantization_witness :
    ((CmndTimepropFallbackvalue ((⟨0, by decide⟩ : Fin MAX_TIMEPROPS).val + 1)
        (some ((30 : Nat) : Int)) demoState).1.settings ⟨0, by decide⟩).fallback_value
      = fallbackStoreValue 30 ∧
    (CmndTimepropFallbackvalue ((⟨0, by decide⟩ : Fin MAX_TIMEPROPS).val + 1)
        (some ((30 : Nat) : Int)) demoState).2
      = some (FallbackValueSettingCalculated (fallbackStoreValue 30)) ∧
    fallbackStoreValue 30 = 2 ∧
    FallbackValueSettingCalculated (fallbackStoreValue 30) = 29 := by
  have h := claim_C5_quantization ⟨0, by decide⟩ 30 (by decide) demoState
  exact ⟨h.1, h.2.1, by decide, by decide⟩

end Timeprop

namespace Timeprop

/-- Claim C6 (amended): a `CmndTimepropSet` with valid channel `i` and
accepted percent sets that channel's `incoming_percent_value`, sets
`is_running`, resets `last_received` and acknowledges the percent; for an
out-of-range channel or percent the handler changes no state and returns
early without any acknowledgment (the previous value is not echoed). -/
theorem claim_C6_set_validation :
    (∀ (i : Fin MAX_TIMEPROPS) (v : Int) (s : TimepropState), uint32OfInt v ≤ 100 →
      CmndTimepropSet (i.val + 1) (some v) s =
        ({ s with
            channels := Function.update s.channels i
              { s.channels i with
                incoming_percent_value := uint32OfInt v,
                is_running := true,
                last_received := 0 } },
          some (uint32OfInt v))) ∧
    (∀ (idx : Nat) (v : Int) (s : TimepropState),
      idx < 1 ∨ MAX_TIMEPROPS < idx ∨ 100 < uint32OfInt v →
      CmndTimepropSet idx (some v) s = (s, none)) := by
  constructor
  · intro i v s hv
    have hi : (⟨i.val + 1 - 1, by omega⟩ : Fin MAX_TIMEPROPS) = i := Fin.ext (by simp)
    unfold CmndTimepropSet
    rw [dif_pos ⟨Nat.le_add_left 1 _, i.isLt⟩]
    dsimp only
    rw [if_neg (by omega), hi]
  · intro idx v s h
    by_cases hb : 1 ≤ idx ∧ idx ≤ MAX_TIMEPROPS
    · have hv : 100 < uint32OfInt v := by
        rcases h with h | h | h
        · omega
        · omega
        · exact h
      unfold CmndTimepropSet
      rw [dif_pos hb]
      dsimp only
      rw [if_pos hv]
    · unfold CmndTimepropSet
      rw [dif_neg hb]

/-- Counterexample to C6 as stated: an accepted channel with an
out-of-range percent produces *no* acknowledgment; the previous
`incoming_percent_value` (0 here) is not echoed back. -/
theorem claim_C6_counterexample :
    ¬ ((CmndTimepropSet 1 (some (101 : Int)) demoState).2
        = some ((demoState.channels ⟨0, by decide⟩).incoming_percent_value)) := by
  decide

/-- Witness for C6 at an out-of-range percent on channel 1. -/
theorem claim_C6_set_validation_witness :
    CmndTimepropSet 1 (some (101 : Int)) demoState = (demoState, none) :=
  claim_C6_set_validation.2 1 101 demoState (by decide)

/-- Counting the OFF command for relay `i+1` in the startup command list
built by filtering the channel range. -/
theorem count_off_filterMap (P : Fin MAX_TIMEPROPS → Prop) [DecidablePred P]
    (i : Fin MAX_TIMEPROPS) :
    (((List.finRange MAX_TIMEPROPS).filterMap fun j =>
        if P j then some (j.val + 1, PowerCmd.powerOff) else none).count
      (i.val + 1, PowerCmd.powerOff)) = if P i then 1 else 0 := by
  have hrange : List.finRange MAX_TIMEPROPS =
      [⟨0, by decide⟩, ⟨1, by decide⟩, ⟨2, by decide⟩, ⟨3, by decide⟩] := by decide
  rw [hrange]
  fin_cases i
  all_goals (simp only [List.filterMap_cons]; split_ifs <;> simp_all [List.count_cons])

/-- Every element of the startup command list is an OFF command for a relay
whose channel passed the filter. -/
theorem mem_off_filterMap (P : Fin MAX_TIMEPROPS → Prop) [DecidablePred P]
    (c : Nat × PowerCmd)
    (hc : c ∈ (List.finRange MAX_TIMEPROPS).filterMap fun j =>
      if P j then some (j.val + 1, PowerCmd.powerOff) else none) :
    c.2 = PowerCmd.powerOff ∧ ∃ i : Fin MAX_TIMEPROPS, c.1 = i.val + 1 ∧ P i := by
  rw [List.mem_filterMap] at hc
  obtain ⟨a, -, ha⟩ := hc
  split_ifs at ha with hP
  cases Option.some_inj.1 ha
  exact ⟨rfl, a, rfl, hP⟩

/-- The channel states produced by `TimepropInit`: the synced state, seeded
when `start_with_fallback` is set and the channel has nonzero timebase and
fallback value. -/
theorem timepropInit_channels (s : TimepropState) (i : Fin MAX_TIMEPROPS) :
    (TimepropInit s).1.channels i =
      if (SyncSettings s).start_with_fallback = true then
        (if ((SyncSettings s).channels i).timebase = 0 then (SyncSettings s).channels i
         else if ((SyncSettings s).channels i).fallback_value = 0 then
            (SyncSettings s).channels i
         else
            { (SyncSettings s).channels i with
              is_running := true,
              incoming_percent_value := ((SyncSettings s).channels i).fallback_value })
      else (SyncSettings s).channels i := by
  unfold TimepropInit
  dsimp only
  by_cases h : (SyncSettings s).start_with_fallback = true
  · rw [if_pos h, if_pos h]
  · rw [if_neg h, if_neg h]

/-- Claim C7: starting from default-constructed channels, `TimepropInit`
commands OFF exactly once for every channel whose synced timebase is
nonzero and for no other channel; with `start_with_fallback` set, every
channel with nonzero timebase and nonzero fallback value ends Init running
with the fallback value as setpoint; with the flag clear, every channel
ends Init not running. -/
theorem claim_C7_startup (s : TimepropState)
    (hch : ∀ i, s.channels i = TIMEPROPSSTATE.start) :
    (∀ i : Fin MAX_TIMEPROPS,
      (TimepropInit s).2.count (i.val + 1, PowerCmd.powerOff)
        = if 0 < ((SyncSettings s).channels i).timebase then 1 else 0) ∧
    (∀ c ∈ (TimepropInit s).2, c.2 = PowerCmd.powerOff ∧
      ∃ i : Fin MAX_TIMEPROPS, c.1 = i.val + 1 ∧
        0 < ((SyncSettings s).channels i).timebase) ∧
    (s.cfg_start_with_fallback = true →
      ∀ i : Fin MAX_TIMEPROPS, 0 < ((SyncSettings s).channels i).timebase →
        0 < ((SyncSettings s).channels i).fallback_value →
        ((TimepropInit s).1.channels i).is_running = true ∧
        ((TimepropInit s).1.channels i).incoming_percent_value
          = ((SyncSettings s).channels i).fallback_value) ∧
    (s.cfg_start_with_fallback = false →
      ∀ i : Fin MAX_TIMEPROPS, ((TimepropInit s).1.channels i).is_running = false) := by
  have hflag : (SyncSettings s).start_with_fallback = s.cfg_start_with_fallback := rfl
  refine ⟨?_, ?_, ?_, ?_⟩
  · intro i
    exact count_off_filterMap (fun j => 0 < ((SyncSettings s).channels j).timebase) i
  · intro c hc
    exact mem_off_filterMap (fun j => 0 < ((SyncSettings s).channels j).timebase) c hc
  · intro hswf i hT hF
    rw [timepropInit_channels, if_pos (by rw [hflag, hswf]),
      if_neg (by omega), if_neg (by omega)]
    exact ⟨rfl, rfl⟩
  · intro hswf i
    rw [timepropInit_channels, if_neg (by rw [hflag, hswf]; simp)]
    show (s.channels i).is_running = false
    rw [hch i]
    rfl

/-- A startup state with channel 1 configured (1 minute timebase, fallback
level 3) and `start_with_fallback` set. -/
def seededState : TimepropState :=
  { channels := fun _ => {},
    settings := fun i => if i.val = 0 then { timebase := 1, fallback_value := 3 } else {},
    cfg_start_with_fallback := true,
    cfg_fallback_time := 0,
    fallback_after_seconds := 0,
    start_with_fallback := false }

/-- Witness for C7: channel 1 of the seeded startup state ends Init running
on its fallback value. -/
theorem claim_C7_startup_witness :
    ((TimepropInit seededState).1.channels ⟨0, by decide⟩).is_running = true ∧
    ((TimepropInit seededState).1.channels ⟨0, by decide⟩).incoming_percent_value
      = ((SyncSettings seededState).channels ⟨0, by decide⟩).fallback_value := by
  have h := (claim_C7_startup seededState (fun i => rfl)).2.2.1 rfl ⟨0, by decide⟩
    (by decide) (by decide)
  exact ⟨h.1, h.2⟩

end Timeprop

namespace Timeprop

/-- Specialization of `tickChannel_run_start` with the fallback feature disabled. -/
theorem tickChannel_run_start0 (s : TIMEPROPSSTATE) (h0 : s.timebase ≠ 0)
    (h1 : s.is_running = true) (hsr : s.seconds_running = 0) :
    (TimepropEverySecondChannel 0 s).1 =
      { s with
        open_seconds_active := OpenSecondsForPercentValue s.incoming_percent_value s.timebase,
        is_open := decide (0 < OpenSecondsForPercentValue s.incoming_percent_value s.timebase),
        seconds_running := if s.timebase ≤ 1 then 0 else 1,
        last_received := (s.last_received + 1) % U32 } := by
  rw [tickChannel_run_start 0 s h0 h1 hsr]
  simp

/-- Specialization of `tickChannel_run_mid` with the fallback feature disabled. -/
theorem tickChannel_run_mid0 (s : TIMEPROPSSTATE) (h0 : s.timebase ≠ 0)
    (h1 : s.is_running = true) (hsr : s.seconds_running ≠ 0) :
    (TimepropEverySecondChannel 0 s).1 =
      { s with
        is_open := if s.open_seconds_active ≤ s.seconds_running then false else s.is_open,
        seconds_running :=
          if s.timebase ≤ (s.seconds_running + 1) % U32 then 0
          else (s.seconds_running + 1) % U32,
        last_received := (s.last_received + 1) % U32 } := by
  rw [tickChannel_run_mid 0 s h0 h1 hsr]
  simp

/-- State after `j` ticks of a cycle started at a cycle-start state with the
fallback feature disabled: the ON duration latched at cycle start keeps the
channel open for its first `open_seconds_active` seconds and closed for the
rest of the cycle. -/
theorem tick_cycle_state (s : TIMEPROPSSTATE) (hT : 0 < s.timebase)
    (hT32 : s.timebase < U32) (hrun : s.is_running = true)
    (hsr : s.seconds_running = 0) :
    ∀ j, 1 ≤ j → j ≤ s.timebase →
      tickChannelN 0 j s =
        { s with
          open_seconds_active :=
            OpenSecondsForPercentValue s.incoming_percent_value s.timebase,
          is_open :=
            decide (j ≤ OpenSecondsForPercentValue s.incoming_percent_value s.timebase),
          seconds_running := if s.timebase ≤ j then 0 else j,
          last_received := (s.last_received + j) % U32 } := by
  intro j hj1
  induction j, hj1 using Nat.le_induction with
  | base =>
      intro h1T
      show (TimepropEverySecondChannel 0 s).1 = _
      rw [tickChannel_run_start0 s (by omega) hrun hsr]
      rfl
  | succ j hj ih =>
      intro hjT
      have hIH := ih (by omega)
      show (TimepropEverySecondChannel 0 (tickChannelN 0 j s)).1 = _
      rw [hIH]
      rw [tickChannel_run_mid0 _ (by show s.timebase ≠ 0; omega)
        (by show s.is_running = true; exact hrun)
        (by show (if s.timebase ≤ j then 0 else j) ≠ 0; rw [if_neg (by omega)]; omega)]
      dsimp only
      rw [if_neg (show ¬ s.timebase ≤ j by omega)]
      rw [Nat.mod_add_mod, Nat.mod_eq_of_lt (show j + 1 < U32 by omega)]
      simp only [TIMEPROPSSTATE.mk.injEq, true_and, and_true]
      refine ⟨?_, by rw [Nat.add_assoc]⟩
      by_cases hk : OpenSecondsForPercentValue s.incoming_percent_value s.timebase ≤ j
      · rw [if_pos hk]
        symm
        simp only [decide_eq_false_iff_not]
        omega
      · rw [if_neg hk]
        have h1 : j ≤ OpenSecondsForPercentValue s.incoming_percent_value s.timebase := by
          omega
        have h2 : j + 1 ≤ OpenSecondsForPercentValue s.incoming_percent_value s.timebase := by
          omega
        simp [h1, h2]

end Timeprop

namespace Timeprop

/-- Claim C1 (amended): from a cycle-start state with a constant setpoint (no
fallback takeover, `fallback_after_seconds = 0`), the channel is commanded
ON for exactly the first `k = round(p/100*T) mod 256` seconds of the cycle
(the 8-bit latched value) and OFF for the remaining `T - k` seconds, the
cycle ends with `seconds_running` back at 0, and when `k = 0` no ON command
is issued at any tick of the cycle. -/
theorem claim_C1_duty_cycle (s : TIMEPROPSSTATE) (hT : 0 < s.timebase)
    (hT32 : s.timebase < U32) (hrun : s.is_running = true)
    (hsr : s.seconds_running = 0) :
    (∀ j, 1 ≤ j → j ≤ s.timebase →
      (tickChannelN 0 j s).is_open
        = decide (j ≤ OpenSecondsForPercentValue s.incoming_percent_value s.timebase)) ∧
    (tickChannelN 0 s.timebase s).seconds_running = 0 ∧
    (OpenSecondsForPercentValue s.incoming_percent_value s.timebase = 0 →
      ∀ j, 1 ≤ j → j ≤ s.timebase →
        PowerCmd.powerOn ∉ (TimepropEverySecondChannel 0 (tickChannelN 0 (j - 1) s)).2) := by
  refine ⟨fun j hj1 hjT => ?_, ?_, fun hk j hj1 hjT => ?_⟩
  · rw [tick_cycle_state s hT hT32 hrun hsr j hj1 hjT]
  · rw [tick_cycle_state s hT hT32 hrun hsr s.timebase hT le_rfl]
    show (if s.timebase ≤ s.timebase then 0 else s.timebase) = 0
    rw [if_pos le_rfl]
  · rcases Nat.eq_or_lt_of_le hj1 with hj1' | hj2
    · have hj0 : j - 1 = 0 := by omega
      rw [hj0]
      show PowerCmd.powerOn ∉ (TimepropEverySecondChannel 0 s).2
      rw [tickChannel_cmds_start 0 s (by omega) hrun hsr]
      rw [hk, if_neg (by omega)]
      split_ifs <;> simp
    · have hj1T : 1 ≤ j - 1 := by omega
      have hjTT : j - 1 ≤ s.timebase := by omega
      rw [tick_cycle_state s hT hT32 hrun hsr (j - 1) hj1T hjTT]
      rw [tickChannel_cmds_mid 0 _ (by show s.timebase ≠ 0; omega)
        (by show s.is_running = true; exact hrun)
        (by show (if s.timebase ≤ j - 1 then 0 else j - 1) ≠ 0
            rw [if_neg (by omega)]; omega)]
      split_ifs <;> simp

/-- Witness for C1 on a 60-second cycle at 50 percent: open at second 30,
closed at second 31. -/
theorem claim_C1_duty_cycle_witness :
    (tickChannelN 0 30
      { is_running := true, incoming_percent_value := 50, timebase := 60 }).is_open
        = true ∧
    (tickChannelN 0 31
      { is_running := true, incoming_percent_value := 50, timebase := 60 }).is_open
        = false := by
  have h := claim_C1_duty_cycle
    { is_running := true, incoming_percent_value := 50, timebase := 60 }
    (by decide) (by decide) (by decide) (by decide)
  constructor
  · rw [h.1 30 (by decide) (by decide)]
    decide
  · rw [h.1 31 (by decide) (by decide)]
    decide

/-- The cycle-start state of the C1 counterexample: timebase 31 minutes
(1860 s), setpoint 100 percent. -/
def c1State : TIMEPROPSSTATE :=
  { is_running := true, incoming_percent_value := 100, timebase := 1860 }

/-- Counterexample to C1 as stated: with timebase 1860 s and setpoint 100
percent the exact rounded product is 1860, so the claim predicts the
channel is still ON at second 69 of the cycle; the code has latched the
8-bit value 68 and has already commanded OFF. -/
theorem claim_C1_counterexample :
    ¬ (∀ j, 1 ≤ j → j ≤ c1State.timebase →
        (tickChannelN 0 j c1State).is_open
          = decide (j ≤ (c1State.incoming_percent_value * c1State.timebase + 50) / 100)) := by
  intro h
  exact absurd (h 69 (by decide) (by decide)) (by decide)

end Timeprop

namespace Timeprop

/-- The dequantized fallback level is at most 100 for persisted levels. -/
theorem dequant_le_100 (l : Nat) (h : l ≤ 7) : FallbackValueSettingCalculated l ≤ 100 := by
  interval_cases l <;> decide

/-- The quantized fallback level is at most 7 for accepted percents. -/
theorem store_le_7 (v : Nat) (h : v ≤ 100) : fallbackStoreValue v ≤ 7 := by
  unfold fallbackStoreValue
  calc (7 * v + 50) / 100 ≤ 750 / 100 := Nat.div_le_div_right (by omega)
  _ = 7 := by decide

/-- The latched ON duration never exceeds the timebase for percents at most
100. -/
theorem openSeconds_le (p T : Nat) (hp : p ≤ 100) :
    OpenSecondsForPercentValue p T ≤ T := by
  unfold OpenSecondsForPercentValue
  have h1 : (p * T + 50) / 100 ≤ (100 * T + 50) / 100 :=
    Nat.div_le_div_right (by have := Nat.mul_le_mul_right T hp; omega)
  have h2 : (100 * T + 50) / 100 = T := by
    rw [Nat.add_comm, Nat.add_mul_div_left 50 T (by norm_num)]
    norm_num
  exact le_trans (Nat.mod_le _ _) (le_trans h1 (le_of_eq h2))

/-- Per-channel inductive invariant. -/
def InvChannel (c : TIMEPROPSSTATE) : Prop :=
  c.incoming_percent_value ≤ 100 ∧
  c.fallback_value ≤ 100 ∧
  (0 < c.timebase → c.seconds_running < c.timebase) ∧
  c.open_seconds_active ≤ c.timebase ∧
  (c.timebase = 0 → c.seconds_running = 0 ∧ c.open_seconds_active = 0) ∧
  (c.is_open = true → c.is_running = true ∧ 0 < c.timebase)

/-- Whole-state inductive invariant: persisted fields within their widths,
every channel invariant holds, and every runtime timebase is either still 0
(not yet synced) or the synced value of its persisted minutes. -/
def Inv (s : TimepropState) : Prop :=
  (∀ i, (s.settings i).timebase ≤ 31 ∧ (s.settings i).fallback_value ≤ 7) ∧
  s.cfg_fallback_time ≤ 127 ∧
  ∀ i : Fin MAX_TIMEPROPS,
    InvChannel (s.channels i) ∧
    ((s.channels i).timebase = 0 ∨
      (s.channels i).timebase = (s.settings i).timebase * 60)

/-- A startup state satisfies the inductive invariant. -/
theorem inv_startup (s : TimepropState) (h : StartupState s) : Inv s := by
  obtain ⟨hch, hset, hcfg, -, -⟩ := h
  refine ⟨hset, hcfg, fun i => ?_⟩
  rw [hch i]
  exact ⟨⟨by decide, by decide, by decide, by decide, by decide, by decide⟩,
    Or.inl rfl⟩

/-- Lemma: `SyncSettings` preserves the inductive invariant. -/
theorem inv_sync (s : TimepropState) (h : Inv s) : Inv (SyncSettings s) := by
  obtain ⟨hset, hcfg, hch⟩ := h
  refine ⟨hset, hcfg, fun i => ?_⟩
  obtain ⟨⟨hp, hfb, hsr, hosa, hz, hio⟩, hcons⟩ := hch i
  refine ⟨⟨hp, dequant_le_100 _ (hset i).2, ?_, ?_, ?_, ?_⟩, Or.inr rfl⟩
  · intro hpos
    have hpos' : 0 < (s.settings i).timebase * 60 := hpos
    show (s.channels i).seconds_running < (s.settings i).timebase * 60
    rcases hcons with h0 | heq
    · have := (hz h0).1
      omega
    · have := hsr (by omega)
      omega
  · show (s.channels i).open_seconds_active ≤ (s.settings i).timebase * 60
    rcases hcons with h0 | heq
    · have := (hz h0).2
      omega
    · omega
  · intro h0
    have h0' : (s.settings i).timebase * 60 = 0 := h0
    show (s.channels i).seconds_running = 0 ∧ (s.channels i).open_seconds_active = 0
    rcases hcons with hz0 | heq
    · exact hz hz0
    · exact hz (by omega)
  · intro ho
    obtain ⟨hr, hT⟩ := hio ho
    refine ⟨hr, ?_⟩
    show 0 < (s.settings i).timebase * 60
    rcases hcons with h0 | heq
    · omega
    · omega

/-- The per-channel tick body preserves the channel invariant and never
changes the timebase, the fallback value, or `is_running`. -/
theorem tickChannel_preserves (fas : Nat) (c : TIMEPROPSSTATE)
    (hc : InvChannel c) (hT32 : c.timebase < U32) :
    InvChannel (TimepropEverySecondChannel fas c).1 ∧
    (TimepropEverySecondChannel fas c).1.timebase = c.timebase ∧
    (TimepropEverySecondChannel fas c).1.is_running = c.is_running ∧
    (TimepropEverySecondChannel fas c).1.fallback_value = c.fallback_value := by
  obtain ⟨hp, hfb, hsrT, hosa, hz, hio⟩ := hc
  by_cases hskip : c.timebase = 0 ∨ c.is_running = false
  · rw [tickChannel_skip fas c hskip]
    exact ⟨⟨hp, hfb, hsrT, hosa, hz, hio⟩, rfl, rfl, rfl⟩
  · push_neg at hskip
    obtain ⟨hT0, hrunne⟩ := hskip
    have hrun : c.is_running = true := by
      cases hcr : c.is_running
      · exact absurd hcr hrunne
      · rfl
    have hTpos : 0 < c.timebase := by omega
    by_cases hsr : c.seconds_running = 0
    · rw [tickChannel_run_start fas c hT0 hrun hsr]
      refine ⟨⟨?_, hfb, ?_, ?_, ?_, ?_⟩, rfl, rfl, rfl⟩
      · show (if _ then c.fallback_value else c.incoming_percent_value) ≤ 100
        split_ifs
        · exact hfb
        · exact hp
      · intro _
        show (if c.timebase ≤ 1 then 0 else 1) < c.timebase
        split_ifs <;> omega
      · exact openSeconds_le _ _ hp
      · intro h0
        exact absurd h0 hT0
      · intro _
        exact ⟨hrun, hTpos⟩
    · rw [tickChannel_run_mid fas c hT0 hrun hsr]
      have hsrlt : c.seconds_running < c.timebase := hsrT hTpos
      have hmod : (c.seconds_running + 1) % U32 = c.seconds_running + 1 :=
        Nat.mod_eq_of_lt (by omega)
      refine ⟨⟨?_, hfb, ?_, hosa, ?_, ?_⟩, rfl, rfl, rfl⟩
      · show (if _ then c.fallback_value else c.incoming_percent_value) ≤ 100
        split_ifs
        · exact hfb
        · exact hp
      · intro _
        show (if c.timebase ≤ (c.seconds_running + 1) % U32 then 0
            else (c.seconds_running + 1) % U32) < c.timebase
        rw [hmod]
        split_ifs <;> omega
      · intro h0
        exact absurd h0 hT0
      · show (if c.open_seconds_active ≤ c.seconds_running then false else c.is_open) = true → _
        split_ifs with hco <;> intro ho
        all_goals first
          | exact ho.elim
          | exact absurd ho (by decide)
          | exact ⟨hrun, hTpos⟩

end Timeprop

namespace Timeprop

/-- Lemma: `TimepropInit` never changes the persisted per-channel settings. -/
theorem timepropInit_settings (s : TimepropState) :
    (TimepropInit s).1.settings = s.settings := by
  unfold TimepropInit
  dsimp only
  split_ifs <;> rfl

/-- Lemma: `TimepropInit` never changes the persisted fallback time. -/
theorem timepropInit_cfg_time (s : TimepropState) :
    (TimepropInit s).1.cfg_fallback_time = s.cfg_fallback_time := by
  unfold TimepropInit
  dsimp only
  split_ifs <;> rfl

/-- Lemma: `TimepropInit` preserves the inductive invariant. -/
theorem inv_init (s : TimepropState) (h : Inv s) : Inv (TimepropInit s).1 := by
  obtain ⟨hset1, hcfg1, hch1⟩ := inv_sync s h
  refine ⟨?_, ?_, fun i => ?_⟩
  · rw [timepropInit_settings]
    exact hset1
  · rw [timepropInit_cfg_time]
    exact hcfg1
  · obtain ⟨⟨hp, hfb, hsr, hosa, hz, hio⟩, hcons⟩ := hch1 i
    rw [timepropInit_channels, timepropInit_settings]
    by_cases hflag : (SyncSettings s).start_with_fallback = true
    · rw [if_pos hflag]
      by_cases hT : ((SyncSettings s).channels i).timebase = 0
      · rw [if_pos hT]
        exact ⟨⟨hp, hfb, hsr, hosa, hz, hio⟩, hcons⟩
      · rw [if_neg hT]
        by_cases hF : ((SyncSettings s).channels i).fallback_value = 0
        · rw [if_pos hF]
          exact ⟨⟨hp, hfb, hsr, hosa, hz, hio⟩, hcons⟩
        · rw [if_neg hF]
          refine ⟨⟨hfb, hfb, hsr, hosa, hz, fun ho => ⟨rfl, ?_⟩⟩, hcons⟩
          show 0 < ((SyncSettings s).channels i).timebase
          omega
    · rw [if_neg hflag]
      exact ⟨⟨hp, hfb, hsr, hosa, hz, hio⟩, hcons⟩

/-- A tick preserves the inductive invariant. -/
theorem inv_tick (s : TimepropState) (h : Inv s) : Inv (TimepropEverySecond s).1 := by
  obtain ⟨hset, hcfg, hch⟩ := h
  refine ⟨hset, hcfg, fun i => ?_⟩
  obtain ⟨hci, hcons⟩ := hch i
  have hT32 : (s.channels i).timebase < U32 := by
    rcases hcons with h0 | heq
    · rw [h0]
      decide
    · have := (hset i).1
      rw [heq]
      simp only [U32]
      omega
  have hpres := tickChannel_preserves s.fallback_after_seconds (s.channels i) hci hT32
  refine ⟨hpres.1, ?_⟩
  show (TimepropEverySecondChannel s.fallback_after_seconds (s.channels i)).1.timebase = 0 ∨
    (TimepropEverySecondChannel s.fallback_after_seconds (s.channels i)).1.timebase
      = (s.settings i).timebase * 60
  rw [hpres.2.1]
  exact hcons

/-- Lemma: `CmndTimepropSet` preserves the inductive invariant. -/
theorem inv_set (idx : Nat) (payload : Option Int) (s : TimepropState) (h : Inv s) :
    Inv (CmndTimepropSet idx payload s).1 := by
  by_cases hb : 1 ≤ idx ∧ idx ≤ MAX_TIMEPROPS
  · unfold CmndTimepropSet
    rw [dif_pos hb]
    cases payload with
    | none => exact h
    | some v =>
      dsimp only
      split_ifs with hv
      · exact h
      · obtain ⟨hset, hcfg, hch⟩ := h
        refine ⟨hset, hcfg, fun i => ?_⟩
        show InvChannel (Function.update s.channels _ _ i) ∧
          ((Function.update s.channels _ _ i).timebase = 0 ∨
            (Function.update s.channels _ _ i).timebase = (s.settings i).timebase * 60)
        rw [Function.update_apply]
        split_ifs with hi
        · subst hi
          obtain ⟨⟨hp, hfb, hsr, hosa, hz, hio⟩, hcons⟩ := hch _
          refine ⟨⟨?_, hfb, hsr, hosa, hz, fun ho => ⟨rfl, (hio ho).2⟩⟩, hcons⟩
          show uint32OfInt v ≤ 100
          omega
        · exact hch i
  · unfold CmndTimepropSet
    rw [dif_neg hb]
    exact h

/-- Lemma: `CmndTimepropFallbackvalue` preserves the inductive invariant. -/
theorem inv_fallbackValue (idx : Nat) (payload : Option Int) (s : TimepropState)
    (h : Inv s) : Inv (CmndTimepropFallbackvalue idx payload s).1 := by
  by_cases hb : 1 ≤ idx ∧ idx ≤ MAX_TIMEPROPS
  · unfold CmndTimepropFallbackvalue
    rw [dif_pos hb]
    cases payload with
    | none => exact h
    | some v =>
      dsimp only
      split_ifs with hv
      · exact h
      · apply inv_sync
        obtain ⟨hset, hcfg, hch⟩ := h
        refine ⟨fun i => ?_, hcfg, fun i => ?_⟩
        · show ((Function.update s.settings _ _ i).timebase ≤ 31 ∧
            (Function.update s.settings _ _ i).fallback_value ≤ 7)
          rw [Function.update_apply]
          split_ifs with hi
          · exact ⟨(hset _).1, store_le_7 _ (by omega)⟩
          · exact hset i
        · obtain ⟨hci, hcons⟩ := hch i
          refine ⟨hci, ?_⟩
          show (s.channels i).timebase = 0 ∨
            (s.channels i).timebase = (Function.update s.settings _ _ i).timebase * 60
          rw [Function.update_apply]
          split_ifs with hi
          · subst hi
            exact hcons
          · exact hcons
  · unfold CmndTimepropFallbackvalue
    rw [dif_neg hb]
    exact h

/-- Lemma: `CmndTimepropStartWithFallback` preserves the inductive invariant. -/
theorem inv_swf (payload : Option Int) (s : TimepropState) (h : Inv s) :
    Inv (CmndTimepropStartWithFallback payload s).1 := by
  cases payload with
  | none => exact h
  | some v =>
    unfold CmndTimepropStartWithFallback
    dsimp only
    split_ifs with hv
    · exact h
    all_goals exact inv_sync _ h

/-- Lemma: `CmndTimepropFallbackAfter` preserves the inductive invariant. -/
theorem inv_fba (payload : Option Int) (s : TimepropState) (h : Inv s) :
    Inv (CmndTimepropFallbackAfter payload s).1 := by
  cases payload with
  | none => exact h
  | some v =>
    unfold CmndTimepropFallbackAfter
    dsimp only
    split_ifs with hv
    · exact h
    · apply inv_sync
      obtain ⟨hset, hcfg, hch⟩ := h
      refine ⟨hset, ?_, hch⟩
      show uint8OfInt v ≤ 127
      omega

end Timeprop

namespace Timeprop

/-- Claim C4 (amended): the three claimed per-channel predicates hold in every
state reachable from a startup state by `TimepropInit`, ticks and the
setters that do not touch the timebase (`CmndTimepropSet`,
`CmndTimepropFallbackvalue`, `CmndTimepropStartWithFallback`,
`CmndTimepropFallbackAfter`); `CmndTimepropTimeBase` does not preserve
them. -/
theorem claim_C4_invariants (s0 s : TimepropState) (h0 : StartupState s0)
    (hr : Relation.ReflTransGen StepNoTimeBase s0 s) : ClaimedInvariants s := by
  have hinv : Inv s := by
    induction hr with
    | refl => exact inv_startup s0 h0
    | tail hab hstep ih =>
        cases hstep with
        | init => exact inv_init _ ih
        | tick => exact inv_tick _ ih
        | set idx payload => exact inv_set idx payload _ ih
        | fallbackValue idx payload => exact inv_fallbackValue idx payload _ ih
        | startWithFallback payload => exact inv_swf payload _ ih
        | fallbackAfter payload => exact inv_fba payload _ ih
  obtain ⟨-, -, hch⟩ := hinv
  intro i
  obtain ⟨⟨hp, hfb, hsr, hosa, hz, hio⟩, -⟩ := hch i
  exact ⟨hsr, hosa, hio⟩

/-- Witness for C4: one Init step from the seeded startup state. -/
theorem claim_C4_invariants_witness :
    ClaimedInvariants (TimepropInit seededState).1 :=
  claim_C4_invariants seededState (TimepropInit seededState).1
    (by
      refine ⟨fun i => rfl, fun i => ?_, by decide, rfl, rfl⟩
      fin_cases i <;> exact ⟨by decide, by decide⟩)
    (Relation.ReflTransGen.single (StepNoTimeBase.init seededState))

/-- Startup state of the C4 counterexample: channel 1 persisted at 1 minute
timebase. -/
def c4Start : TimepropState :=
  { channels := fun _ => {},
    settings := fun i => if i.val = 0 then { timebase := 1, fallback_value := 0 } else {},
    cfg_start_with_fallback := false,
    cfg_fallback_time := 0,
    fallback_after_seconds := 0,
    start_with_fallback := false }

/-- Final state of the C4 counterexample: Init, `Set(1,100)`, one tick
(which opens channel 1), then `TimeBase(1,0)`. -/
def c4Final : TimepropState :=
  (CmndTimepropTimeBase 1 (some 0)
    (TimepropEverySecond
      (CmndTimepropSet 1 (some 100) (TimepropInit c4Start).1).1).1).1

/-- The counterexample startup state is a startup state. -/
theorem c4Start_startup : StartupState c4Start := by
  refine ⟨fun i => rfl, fun i => ?_, by decide, rfl, rfl⟩
  fin_cases i <;> exact ⟨by decide, by decide⟩

/-- The counterexample final state is reachable (using the full step
relation, `CmndTimepropTimeBase` included). -/
theorem c4Reach : Relation.ReflTransGen Step c4Start c4Final :=
  Relation.ReflTransGen.tail
    (Relation.ReflTransGen.tail
      (Relation.ReflTransGen.tail
        (Relation.ReflTransGen.single (Step.init c4Start))
        (Step.set 1 (some 100) (TimepropInit c4Start).1))
      (Step.tick (CmndTimepropSet 1 (some 100) (TimepropInit c4Start).1).1))
    (Step.timeBase 1 (some 0)
      (TimepropEverySecond
        (CmndTimepropSet 1 (some 100) (TimepropInit c4Start).1).1).1)

/-- In the counterexample final state channel 1 is still open while its
timebase has been set to 0. -/
theorem c4Final_violation :
    (c4Final.channels ⟨0, by decide⟩).is_open = true ∧
    (c4Final.channels ⟨0, by decide⟩).timebase = 0 := by
  decide

/-- Counterexample to C4 as stated: the claimed predicates are not
preserved by `CmndTimepropTimeBase`; setting the timebase to 0 while a
channel is driving reaches a state with `is_open = true` and
`timebase = 0`. -/
theorem claim_C4_counterexample :
    ¬ (∀ s0 s : TimepropState, StartupState s0 →
        Relation.ReflTransGen Step s0 s → ClaimedInvariants s) := by
  intro h
  have h3 := (h c4Start c4Final c4Start_startup c4Reach ⟨0, by decide⟩).2.2
  have hT0 : (c4Final.channels ⟨0, by decide⟩).timebase = 0 := c4Final_violation.2
  have := (h3 c4Final_violation.1).2
  omega

end Timeprop
